import Mathlib

/-!
Shallow embedding of the news-ingestion backend
(backend/app/scraper.py, backend/app/news_fetcher.py,
backend/app/firestore.py) together with theorems settling the
specification claims about it.

External effects (network fetches, HTML parsing, the md5 digest, the
datetime library, the Firestore client) are modelled as explicit
function parameters or as already-materialised data structures; the
control flow and data flow of every embedded function is translated
line by line from the Python source.
-/

/-! ## Python string and truthiness helpers -/

/-- The Python substring test `pat in hay`, on lists of characters. -/
def charsContain (hay pat : List Char) : Bool :=
  match hay with
  | [] => pat.isEmpty
  | _ :: t => pat.isPrefixOf hay || charsContain t pat

/-- The Python substring test `pat in s` on strings. -/
def strIn (pat s : String) : Bool :=
  charsContain s.data pat.data

/-- Python `s.lower()` (character-wise lowering; all concrete strings
in this development are ASCII, where the two agree). -/
def strLower (s : String) : String :=
  ⟨s.data.map Char.toLower⟩

/-- Python `s.endswith(post)` (also the anchored regex searches of
`is_valid_image`). -/
def strEndsWith (s post : String) : Bool :=
  post.data.isSuffixOf s.data

/-- Python `s.startswith(p)`. -/
def strStartsWith (s p : String) : Bool :=
  p.data.isPrefixOf s.data

/-- Python falsiness test for a string: true iff empty. -/
def strIsEmpty (s : String) : Bool :=
  s.data.isEmpty

/-- Python `s[:n]` (slicing counts code points, as does this). -/
def strTake (s : String) (n : Nat) : String :=
  ⟨s.data.take n⟩

/-- Truthiness of a Python value modelled as `Option String`:
`None` and the empty string are falsy. -/
def pyTruthy : Option String → Bool
  | none => false
  | some s => !(strIsEmpty s)

/-- The Python expression `a or b` on optional strings: yields `a`
when truthy, else `b`. -/
def pyOr (a b : Option String) : Option String :=
  if pyTruthy a then a else b

/-! ## scraper.py: image tags and documents

An `ImgTag` holds the attributes of one `img` element that
`extract_images` reads via `img.get(...)`; `none` models an absent
attribute.  A `Doc` is the result of parsing html with BeautifulSoup,
restricted to what `extract_images` queries: the list of `img` tags in
document order and the two meta images returned by `get_meta_image`
(outer `none` = no tag found or no content attribute).  The flag
`parseFails` models `BeautifulSoup` itself raising. -/

structure ImgTag where
  src : Option String := none
  data_src : Option String := none
  data_lazy_src : Option String := none
  width : Option String := none
  height : Option String := none
  classes : List String := []
  id : Option String := none
  alt : Option String := none
deriving DecidableEq

structure Doc where
  parseFails : Bool := false
  imgs : List ImgTag := []
  og_image : Option String := none
  twitter_image : Option String := none
deriving DecidableEq

/-- Library functions from urllib.parse used by `extract_images`:
`urljoin`, and the base URL `scheme://netloc` computed from
`urlparse(url)`. -/
structure UrlFns where
  urljoin : String → String → String
  base_of : String → String

/-- The space-join of the class attribute token list, lowered. -/
def classStr (img : ImgTag) : String :=
  strLower (String.intercalate " " img.classes)

/-- The id attribute, defaulted to empty, lowered. -/
def idStr (img : ImgTag) : String :=
  strLower (img.id.getD "")

/-- The alt attribute, defaulted to empty, lowered. -/
def altStr (img : ImgTag) : String :=
  strLower (img.alt.getD "")

def skip_patterns : List String :=
  ["icon", "logo", "avatar", "profile", "thumbnail",
   "ads", "banner", "header", "footer", "sidebar",
   "social", "share", "comment", "widget"]

def article_indicators : List String :=
  ["article", "content", "main", "hero", "featured",
   "lead", "primary", "story", "news"]

/-- scraper.py `is_valid_image`: rejects srcs containing a skip
pattern, declared dimensions below 200x200 (Python `int(...)` is
modelled by `String.toInt?`; a non-parsing dimension hits the
`ValueError: pass` branch and is ignored), and icon file extensions.
The body cannot raise, so the `except: return False` arm is dead. -/
def is_valid_image (img : ImgTag) (src : String) : Bool :=
  let src_lower := strLower src
  if skip_patterns.any (fun p => strIn p src_lower) then false
  else
    let dimFail :=
      if pyTruthy img.width && pyTruthy img.height then
        match (img.width.getD "").toInt?, (img.height.getD "").toInt? with
        | some w, some h => w < 200 || h < 200
        | _, _ => false
      else false
    if dimFail then false
    else if strEndsWith src_lower ".ico" || strEndsWith src_lower ".svg"
        || strEndsWith src_lower ".gif" then false
    else true

/-- scraper.py `is_potential_top_image`: true when an article
indicator occurs in the class, id or alt text. -/
def is_potential_top_image (img : ImgTag) (_src : String) : Bool :=
  article_indicators.any (fun ind =>
    strIn ind (classStr img) || strIn ind (idStr img) || strIn ind (altStr img))

/-- scraper.py `calculate_image_score`: base 10, a dimension tier
bonus, additive indicator bonuses (+25 class, +20 id, +15 alt per
indicator), and +5 for raster photo extensions.  The body cannot
raise, so the `except: return 0` arm is dead. -/
def calculate_image_score (img : ImgTag) (src : String) : Nat :=
  let score := 10
  let score := score +
    (if pyTruthy img.width && pyTruthy img.height then
      match (img.width.getD "").toInt?, (img.height.getD "").toInt? with
      | some w, some h =>
        if w ≥ 400 && h ≥ 300 then 30
        else if w ≥ 300 && h ≥ 200 then 20
        else if w ≥ 200 && h ≥ 150 then 10
        else 0
      | _, _ => 0
     else 0)
  let cstr := classStr img
  let istr := idStr img
  let astr := altStr img
  let score := article_indicators.foldl
    (fun acc ind => acc + (if strIn ind cstr then 25 else 0)
      + (if strIn ind istr then 20 else 0)
      + (if strIn ind astr then 15 else 0)) score
  score + (if strEndsWith (strLower src) ".jpg" || strEndsWith (strLower src) ".jpeg"
      || strEndsWith (strLower src) ".png" then 5 else 0)

/-- An entry of `potential_top_images`: url plus score. -/
structure Candidate where
  url : String
  score : Nat
deriving DecidableEq

/-- Python `max(xs, key=score)`: keeps the first element, replacing it
only on a strictly greater score, so ties go to the earliest. -/
def maxByScore (c : Candidate) (t : List Candidate) : Candidate :=
  t.foldl (fun b x => if x.score > b.score then x else b) c

/-- URL resolution in the img loop of `extract_images`
(scraper.py lines 86-91). -/
def resolveSrc (lib : UrlFns) (url : String) (src : String) : String :=
  if strStartsWith src "//" then "https:" ++ src
  else if strStartsWith src "/" then lib.urljoin (lib.base_of url) src
  else if !(strStartsWith src "http") then lib.urljoin url src
  else src

/-- One iteration of the `for img in img_tags` loop of
`extract_images` (scraper.py lines 80-102), threading the `images`
and `potential_top_images` accumulators. -/
def imgStep (lib : UrlFns) (url : String)
    (acc : List String × List Candidate) (img : ImgTag) :
    List String × List Candidate :=
  match pyOr (pyOr img.src img.data_src) img.data_lazy_src with
  | none => acc
  | some s0 =>
    if strIsEmpty s0 then acc
    else
      let src := resolveSrc lib url s0
      if is_valid_image img src then
        let images := acc.1 ++ [src]
        if is_potential_top_image img src then
          (images, acc.2 ++ [⟨src, calculate_image_score img src⟩])
        else (images, acc.2)
      else acc

/-- The selection logic of `extract_images` (scraper.py lines 71-124
without the debug statements of lines 120-122): collect and score
candidates, inject the Open-Graph and Twitter meta images with fixed
scores 100 and 90, pick the maximum-score candidate (first on ties),
fall back to the first raw image, and de-duplicate the image list
(`list(set(images))`, modelled as first-occurrence de-duplication). -/
def extract_images_selection (lib : UrlFns) (url : String) (doc : Doc) :
    List String × String :=
  let (images, pot0) := doc.imgs.foldl (imgStep lib url) ([], [])
  let pot1 := match doc.og_image with
    | some u => if strIsEmpty u then pot0 else pot0 ++ [⟨u, 100⟩]
    | none => pot0
  let pot := match doc.twitter_image with
    | some u => if strIsEmpty u then pot1 else pot1 ++ [⟨u, 90⟩]
    | none => pot1
  let top_image :=
    match pot with
    | c :: t => (maxByScore c t).url
    | [] =>
      match images with
      | i :: _ => i
      | [] => ""
  (images.eraseDups, top_image)

/-- The try-body of scraper.py `extract_images`.  After computing the
selection, line 120 eagerly formats a debug f-string that
dereferences `article.meta_data`; the name `article` is
unbound in that scope (NameError when the module is imported;
AttributeError on the EnhancedArticle global in the script path), so
the body always raises before reaching the `return` of line 124. -/
def extract_imagesTry (lib : UrlFns) (url : String) (doc : Doc) :
    Except String (List String × String) :=
  if doc.parseFails then .error "BeautifulSoup failed"
  else
    let _r := extract_images_selection lib url doc
    .error "NameError: name article is not defined"

/-- scraper.py `extract_images`: the try-body with the
`except Exception` handler of lines 126-128 returning `([], "")`. -/
def extract_images (lib : UrlFns) (url : String) (doc : Doc) :
    List String × String :=
  match extract_imagesTry lib url doc with
  | .ok r => r
  | .error _ => ([], "")

/-! ## news_fetcher.py: data model -/

/-- The `NewsItem` dataclass (news_fetcher.py lines 23-31).
`published_date` abstracts a datetime as a number; `authors` defaults
to Python `None`, modelled as `none`. -/
structure NewsItem where
  title : String
  content : String
  url : String
  source : String
  published_date : Nat
  image_url : Option String := none
  authors : Option (List String) := none
deriving DecidableEq

/-- A feed entry object as read by the RSS loop.  `none` in an outer
`Option` models a missing attribute or key.  For the media fields,
`none` models an absent or empty attribute (falsy), `some none` an
attribute whose first dict lacks the url key (so indexing it
raises KeyError), and `some (some u)` a usable url. -/
structure RSSEntry where
  title : Option String := none
  link : Option String := none
  summary : Option String := none
  media_thumbnail : Option (Option String) := none
  media_content : Option (Option String) := none
  published_parsed : Option Nat := none
deriving DecidableEq

/-- `RSSFeedFetcher._extract_content` / `NewsAPIClient._get_full_content`:
downloads and parses the page at `url`.  The network and the newspaper
library are modelled by `web`; both wrappers catch every exception and
return the empty string, so the result is total. -/
def extract_content (web : String → Option String) (url : String) : String :=
  (web url).getD ""

/-- `RSSFeedFetcher._extract_image` (news_fetcher.py lines 163-179):
feed media metadata first, else the src of the FIRST img element of
the parsed entry summary (`soup.find(img)`), else `None`.  The html
parsing of markup is modelled by `parse`; the `content` argument is unused in
the source as well.  Accessing a missing `url` key on the media dict
raises, hence the `Except`. -/
def extract_image (parse : String → Doc) (entry : RSSEntry)
    (_content : String) : Except String (Option String) :=
  match entry.media_thumbnail with
  | some (some u) => .ok (some u)
  | some none => .error "KeyError: url"
  | none =>
    match entry.media_content with
    | some (some u) => .ok (some u)
    | some none => .error "KeyError: url"
    | none =>
      match entry.summary with
      | some s =>
        match (parse s).imgs.head? with
        | some img => if pyTruthy img.src then .ok img.src else .ok none
        | none => .ok none
      | none => .ok none

/-- The body of the `for entry in feed.entries[:10]` loop of
`fetch_from_rss` (news_fetcher.py lines 126-144), building one
`NewsItem`.  Attribute accesses on a missing `link` or `title` raise
AttributeError, in source order: `entry.link` at line 127, the image
extraction at line 130, `entry.title` at line 137. -/
def buildRSSItem (parse : String → Doc) (web : String → Option String)
    (now : Nat) (source : String) (entry : RSSEntry) :
    Except String NewsItem := do
  let link ← match entry.link with
    | some l => pure l
    | none => throw "AttributeError: link"
  let content := extract_content web link
  let image_url ← extract_image parse entry content
  let published_date := match entry.published_parsed with
    | some t => t
    | none => now
  let title ← match entry.title with
    | some t => pure t
    | none => throw "AttributeError: title"
  pure { title := title,
         content := if strIsEmpty content then entry.summary.getD "" else content,
         url := link, source := source, published_date := published_date,
         image_url := image_url, authors := some [] }

/-- The per-source entry loop of `fetch_from_rss`: entries are
processed in order and appended to the shared accumulator; the first
entry that raises jumps to the per-SOURCE `except` handler (line 146),
which abandons the remaining entries of that source. -/
def rssEntriesLoop (parse : String → Doc) (web : String → Option String)
    (now : Nat) (source : String) : List RSSEntry → List NewsItem
  | [] => []
  | e :: t =>
    match buildRSSItem parse web now source e with
    | .ok item => item :: rssEntriesLoop parse web now source t
    | .error _ => []

/-- `RSSFeedFetcher.fetch_from_rss` (news_fetcher.py lines 113-150)
over already-fetched feeds (source name paired with the parsed feed
entries): per source, at most 10 entries are processed; a failure
inside one source falls to its `except ... continue` and the loop
moves on to the next source, keeping everything accumulated so far. -/
def fetch_from_rss (parse : String → Doc) (web : String → Option String)
    (now : Nat) (feeds : List (String × List RSSEntry)) : List NewsItem :=
  feeds.foldl
    (fun acc f => acc ++ rssEntriesLoop parse web now f.1 (f.2.take 10)) []

/-- One article object of the News API JSON response, as read by
`fetch_top_headlines`; `none` models a missing or null key. -/
structure APIArticle where
  title : Option String := none
  url : Option String := none
  description : Option String := none
  urlToImage : Option String := none
  source_name : Option String := none
  publishedAt : Option String := none
  author : Option String := none
deriving DecidableEq

/-- The News API JSON response body. -/
structure APIResponse where
  status : Option String := none
  articles : List APIArticle := []
deriving DecidableEq

/-- The per-article body of the `fetch_top_headlines` loop
(news_fetcher.py lines 60-78): full content with description
fallback, image kept only when absent, empty, or already absolute
http(s); `datetime.fromisoformat` (modelled by `fromIso`) on the
Z-normalised `publishedAt`, whose missing key raises KeyError. -/
def buildAPIItem (web : String → Option String)
    (fromIso : String → Except String Nat) (a : APIArticle) :
    Except String NewsItem := do
  let title := a.title.getD ""
  let url := a.url.getD ""
  let content := extract_content web url
  let image_url := match a.urlToImage with
    | some u =>
      if !(strIsEmpty u) && !(strStartsWith u "http://" || strStartsWith u "https://")
      then none else some u
    | none => none
  let published_date ← match a.publishedAt with
    | some s => fromIso (s.replace "Z" "+00:00")
    | none => throw "KeyError: publishedAt"
  pure { title := title,
         content := if strIsEmpty content then a.description.getD "" else content,
         url := url, source := a.source_name.getD "Unknown",
         published_date := published_date, image_url := image_url,
         authors := some (match a.author with
           | some au => if strIsEmpty au then [] else [au]
           | none => []) }

/-- The `for article in data.get(articles, [])` loop of
`fetch_top_headlines`: items lacking a truthy title or url are
skipped; the first raising item aborts the whole loop. -/
def headlinesLoop (web : String → Option String)
    (fromIso : String → Except String Nat) :
    List APIArticle → Except String (List NewsItem)
  | [] => .ok []
  | a :: t =>
    if pyTruthy a.title && pyTruthy a.url then do
      let item ← buildAPIItem web fromIso a
      let rest ← headlinesLoop web fromIso t
      pure (item :: rest)
    else headlinesLoop web fromIso t

/-- `NewsAPIClient.fetch_top_headlines` (news_fetcher.py lines 41-85)
over an already-received response: on a non-ok status the error
branch returns `[]`; any exception in the loop reaches the
session-level `except` (line 83), which also returns `[]`,
discarding every item of the fetch. -/
def fetch_top_headlines (web : String → Option String)
    (fromIso : String → Except String Nat) (resp : APIResponse) :
    List NewsItem :=
  if resp.status == some "ok" then
    match headlinesLoop web fromIso resp.articles with
    | .ok l => l
    | .error _ => []
  else []

/-! ## news_fetcher.py: deduplication, processing, scheduler

The md5 hexdigest is a fixed deterministic function of its input
bytes; it is threaded through as an abstract parameter `md5hex`, so
everything proved below holds for the real digest in particular. -/

/-- The loop of `NewsFetcher.remove_duplicates`
(news_fetcher.py lines 217-229) with the `seen_urls` and
`seen_titles` sets threaded explicitly (membership-only use, so a
list models the set): skip on a seen url, else skip on a seen
`md5(title.lower())`, else keep and record both. -/
def removeDupGo (md5hex : String → String) :
    List NewsItem → List String → List String → List NewsItem
  | [], _, _ => []
  | a :: t, seen_urls, seen_titles =>
    if a.url ∈ seen_urls then removeDupGo md5hex t seen_urls seen_titles
    else if md5hex (strLower a.title) ∈ seen_titles then
      removeDupGo md5hex t seen_urls seen_titles
    else a :: removeDupGo md5hex t (a.url :: seen_urls)
      (md5hex (strLower a.title) :: seen_titles)

/-- `NewsFetcher.remove_duplicates` (news_fetcher.py lines 211-231):
starts from freshly-initialised empty sets. -/
def remove_duplicates (md5hex : String → String)
    (articles : List NewsItem) : List NewsItem :=
  removeDupGo md5hex articles [] []

/-- Modelled from the spec, section 4.3: for each article in input
order, skip if its URL is already in set (a); else compute a
case-insensitive hash of the exact title text and skip if that hash
is in set (b); else keep the article and insert its URL into (a) and
its title hash into (b).  The case-insensitive hash is `h` applied to
the lower-cased title. -/
def dedupeSpec (h : String → String) (articles : List NewsItem) :
    List NewsItem :=
  (articles.foldl
    (fun st a =>
      if a.url ∈ st.2.1 then st
      else if h (strLower a.title) ∈ st.2.2 then st
      else (st.1 ++ [a], a.url :: st.2.1, h (strLower a.title) :: st.2.2))
    (([] : List NewsItem), ([] : List String), ([] : List String))).1

/-- The dict built by `NewsFetcher._process_articles`
(news_fetcher.py lines 249-261). -/
structure StoredData where
  title : String
  summary : String
  content : String
  author : List String
  published_date : Nat
  source : String
  url : String
  image_url : Option String
  category : String
  created_at : String
  url_hash : String
deriving DecidableEq

/-- The record construction of `_process_articles`
(news_fetcher.py lines 243-261): the summarizer and classifier are
external services (`summarize`, `classify`), `now` is
`datetime.now().isoformat()`, body text is truncated to 1000
characters, and `url_hash` is `md5(article.url.encode()).hexdigest()`. -/
def processArticleData (md5hex summarize classify : String → String)
    (now : String) (a : NewsItem) : StoredData :=
  { title := a.title,
    summary := summarize a.content,
    content := strTake a.content 1000,
    author := a.authors.getD [],
    published_date := a.published_date,
    source := a.source,
    url := a.url,
    image_url := a.image_url,
    category := classify (a.title ++ "\n\n" ++ strTake a.content 1000),
    created_at := now,
    url_hash := md5hex a.url }

/-- The loop condition of `NewsFetcher.continuous_fetch`
(news_fetcher.py line 280) is literally `while True:`; it never
consults the flag set by the scheduler, so it holds whatever the
value of `NewsScheduler.running`. -/
def continuousFetchGuard (_running : Bool) : Bool := true

/-- Number of fetch cycles `continuous_fetch` executes within `fuel`
loop iterations, given the current value of the scheduler flag: each
iteration re-checks the guard and, while it holds, runs one cycle
(lines 281-291; both the success path and the error path sleep and
loop again, neither exits). -/
def continuousFetchCycles (running : Bool) : Nat → Nat
  | 0 => 0
  | n + 1 =>
    if continuousFetchGuard running then continuousFetchCycles running n + 1
    else 0

/-- State of a `NewsScheduler` instance (news_fetcher.py lines
295-317): the `running` flag, plus the count of `continuous_fetch`
tasks created by `asyncio.create_task` whose loop has not finished.
Because `continuousFetchGuard` is constantly true, a created task
never finishes, so no operation decreases `loops`; the task handle is
not stored on the instance, and `stop_scheduler` does not cancel it. -/
structure SchedulerState where
  running : Bool
  loops : Nat
deriving DecidableEq

/-- `NewsScheduler.start_scheduler`: when already running it logs a
warning and executes a bare `return`, yielding Python `None` (no task
handle); otherwise it sets the flag, creates the background task and
returns that task. -/
def start_scheduler (s : SchedulerState) : SchedulerState × Option Nat :=
  if s.running then (s, none)
  else ({ running := true, loops := s.loops + 1 }, some s.loops)

/-- `NewsScheduler.stop_scheduler`: sets `self.running = False` and
nothing else. -/
def stop_scheduler (s : SchedulerState) : SchedulerState :=
  { s with running := false }

/-! ## firestore.py: add_news_item -/

/-- The dict handed to `add_news_item`, restricted to the keys the
function reads or writes; `none` models a missing key. -/
structure FsData where
  url : Option String := none
  title : Option String := none
  created_at : Option String := none
  url_hash : Option String := none
deriving DecidableEq

/-- The Firestore collection as the list of stored documents. -/
structure FsDB where
  docs : List FsData := []
deriving DecidableEq

/-- `add_news_item` (firestore.py lines 14-41).  Failure points are
modelled explicitly: a missing `url` key raises KeyError at line 18;
`queryFails` models the duplicate-lookup query raising (network or
client error); `addFails` models `collection.add` raising.  Every
raise lands in the `except` handler of lines 39-41, which returns
`False`.  (In the duplicate branch, the `print` of line 28 raises
KeyError when `title` is missing; that raise also reaches the handler
and returns the same `False` with the store untouched, so the branch
is modelled by its common result.)  The url_hash assignment of line
19 only becomes observable when the document is inserted, so it is
applied at the insert; `withTimestamp` is the created_at defaulting
of lines 32-33.  The duplicate lookup compares
`url_hash` fields; the timestamp `now` is added when `created_at` is
absent. -/
def withTimestamp (now : String) (d : FsData) : FsData :=
  if d.created_at.isNone then { d with created_at := some now } else d

def add_news_item (md5hex : String → String) (queryFails addFails : Bool)
    (now : String) (db : FsDB) (data : FsData) : FsDB × Bool :=
  match data.url with
  | none => (db, false)
  | some u =>
    if queryFails then (db, false)
    else if db.docs.any (fun d => d.url_hash == some (md5hex u)) then (db, false)
    else if addFails then (db, false)
    else ({ docs := db.docs ++
              [withTimestamp now { data with url_hash := some (md5hex u) }] },
          true)

/-! ## Concrete inputs used by counterexamples and witnesses -/

/-- A trivial url library: `urljoin` keeps the relative part and the
base is the url itself.  Every concrete src below is already absolute,
so resolution never consults these functions. -/
def lib0 : UrlFns := ⟨fun _ s => s, fun u => u⟩

def imgA1 : ImgTag := { src := some "http://e/a1.jpg", classes := ["story"] }

def imgA2 : ImgTag := { src := some "http://e/a2.jpg", classes := ["story"] }

def imgA3 : ImgTag := { src := some "http://e/a3.jpg", classes := ["story"] }

/-- A document with an Open-Graph meta image and three valid,
potential-top images that each score 40 < 100. -/
def docC1 : Doc :=
  { imgs := [imgA1, imgA2, imgA3], og_image := some "http://e/og.jpg" }

/-- A document whose parse step fails. -/
def docFail : Doc := { parseFails := true }

/-- An img element whose class attribute carries four article
indicators. -/
def imgC7 : ImgTag :=
  { src := some "https://e/p.bmp", classes := ["article", "news", "story", "hero"] }

/-- The summary markup of the C8 entry and its parse: one img element
whose src contains the blocklisted substring logo. -/
def sumStr : String := "<img src=\x22http://s/logo.png\x22>"

def imgC8 : ImgTag := { src := some "http://s/logo.png" }

/-- A concrete parse function: the C8 summary yields its one img tag,
anything else an empty document. -/
def parse1 : String → Doc :=
  fun s => if s == sumStr then { imgs := [imgC8] } else {}

/-- An entry with no feed-native image metadata but with summary
markup. -/
def entryC8 : RSSEntry := { summary := some sumStr }

/-- A parse function returning the empty document, and a web model on
which every full-document download fails (the wrappers then return
the empty string). -/
def parse0 : String → Doc := fun _ => {}

def web0 : String → Option String := fun _ => none

def entryA1 : RSSEntry :=
  { title := some "T1", link := some "http://a/1", published_parsed := some 5 }

/-- An entry whose media_thumbnail first dict lacks the url key, so
image extraction raises KeyError. -/
def entryBad : RSSEntry := { link := some "http://a/2", media_thumbnail := some none }

def entryA3 : RSSEntry :=
  { title := some "T3", link := some "http://a/3", published_parsed := some 5 }

def iso0 : String → Except String Nat := fun _ => .ok 7

def apiG1 : APIArticle :=
  { title := some "G1", url := some "http://n/1", publishedAt := some "2024Z" }

/-- An API item with title and url but no publishedAt key: building
it raises KeyError. -/
def apiBad : APIArticle := { title := some "B", url := some "http://n/2" }

def respBad : APIResponse := { status := some "ok", articles := [apiG1, apiBad, apiG1] }

def artV1 : NewsItem :=
  { title := "Budget passes", content := "first fetch", url := "http://n/a",
    source := "X", published_date := 1 }

def artV2 : NewsItem :=
  { title := "Budget PASSES, updated", content := "second longer fetch",
    url := "http://n/a", source := "Y", published_date := 2 }

def fsD1 : FsData := { url := some "http://x", title := some "t" }

/-- A store already holding a document whose url_hash is the identity
digest of the C10 url. -/
def dbDup : FsDB := { docs := [{ url := some "http://x", url_hash := some "http://x" }] }

def schedFresh : SchedulerState := { running := false, loops := 0 }

/-! ## C1: Image Selector best-image claim -/

/-- C1 (code bug): on a document with an Open-Graph meta image and
three heuristic candidates scoring 40 each (all below 100),
`extract_images` returns `([], "")` instead of the Open-Graph URL,
because its debug statement dereferences the unbound name `article`
and the exception handler swallows the selection; the selection logic
itself (the same body without the debug lines) does return the
Open-Graph image over the lower-scored candidates. -/
theorem extract_images_og_bug :
    extract_images lib0 "http://e/a" docC1 = ([], "")
    ∧ extract_images_selection lib0 "http://e/a" docC1
        = (["http://e/a1.jpg", "http://e/a2.jpg", "http://e/a3.jpg"],
           "http://e/og.jpg")
    ∧ calculate_image_score imgA1 "http://e/a1.jpg" = 40
    ∧ calculate_image_score imgA2 "http://e/a2.jpg" = 40
    ∧ calculate_image_score imgA3 "http://e/a3.jpg" = 40 := by
  refine ⟨rfl, by decide, by decide, by decide, by decide⟩

/-! ## C9: Image Selector totality -/

theorem extract_images_const (lib : UrlFns) (url : String) (doc : Doc) :
    extract_images lib url doc = ([], "") := by
  cases hp : doc.parseFails <;>
    simp [extract_images, extract_imagesTry, hp]

/-- C9: `extract_images` never raises (it is total, every exception
being caught by its handler), on a parse failure it returns the empty
list and empty best URL, and the returned candidate list never
contains a repeated URL.  All three facts hold because the function
always reaches its exception handler (see C1) and so always returns
`([], "")`. -/
theorem extract_images_total_nodup (lib : UrlFns) (url : String) (doc : Doc) :
    (extract_images lib url doc).1.Nodup
    ∧ (doc.parseFails = true → extract_images lib url doc = ([], "")) := by
  rw [extract_images_const]
  exact ⟨List.nodup_nil, fun _ => rfl⟩

theorem extract_images_total_nodup_witness :
    docFail.parseFails = true ∧ extract_images lib0 "http://e" docFail = ([], "") :=
  ⟨rfl, (extract_images_total_nodup lib0 "http://e" docFail).2 rfl⟩

/-! ## C3: identity hash is a function of the URL only -/

/-- C3: the url_hash of the stored record, as built by
`_process_articles`, is the digest of the article URL alone, so two
articles with the same URL receive the same hash whatever their
titles, bodies, dates or the behaviour of the external services. -/
theorem url_hash_function_of_url (md5hex summarize classify : String → String)
    (now : String) (a1 a2 : NewsItem) (h : a1.url = a2.url) :
    (processArticleData md5hex summarize classify now a1).url_hash
      = (processArticleData md5hex summarize classify now a2).url_hash := by
  simp [processArticleData, h]

theorem url_hash_function_of_url_witness :
    artV1.url = artV2.url
    ∧ (processArticleData id id id "t" artV1).url_hash
        = (processArticleData id id id "t" artV2).url_hash :=
  ⟨rfl, url_hash_function_of_url id id id "t" artV1 artV2 rfl⟩

/-! ## C4: the stop signal does not stop the loop -/

theorem continuousFetchCycles_eq (b : Bool) (n : Nat) :
    continuousFetchCycles b n = n := by
  induction n with
  | zero => rfl
  | succ n ih => simp [continuousFetchCycles, continuousFetchGuard, ih]

/-- C4 (code bug): after `stop_scheduler` the loop condition of
`continuous_fetch` still holds (it is `while True`, never consulting
the flag), and the loop keeps executing one fetch cycle per iteration
indefinitely: it never exits at a sleep boundary or anywhere else. -/
theorem continuous_fetch_ignores_stop (s : SchedulerState) (n : Nat) :
    continuousFetchGuard (stop_scheduler s).running = true
    ∧ continuousFetchCycles (stop_scheduler s).running n = n :=
  ⟨rfl, continuousFetchCycles_eq _ n⟩

/-! ## C5: scheduler start/stop -/

/-- C5 (counterexample): the first start returns task handle 0; a
second start while running returns `None`, not the existing handle;
and after start, stop, start two `continuous_fetch` loops are alive
at once (the first is never terminated, see C4), refuting both "the
existing run handle is returned unchanged" and "at most one Running
loop exists at any time". -/
theorem scheduler_start_counterexample :
    (start_scheduler schedFresh).2 = some 0
    ∧ (start_scheduler (start_scheduler schedFresh).1).2 = none
    ∧ (start_scheduler
        (stop_scheduler (start_scheduler (start_scheduler schedFresh).1).1)).1.loops
        = 2 := by
  decide

/-- C5 (amended): starting while Running is a no-op that returns no
handle (Python `None`), so two consecutive starts leave the state of
the first start unchanged and exactly one loop created; stopping
while Idle is a no-op. -/
theorem scheduler_idempotent_amended (s : SchedulerState) :
    start_scheduler { s with running := true } = ({ s with running := true }, none)
    ∧ stop_scheduler { s with running := false } = { s with running := false }
    ∧ (start_scheduler (start_scheduler { s with running := false }).1).1.loops
        = s.loops + 1 := by
  refine ⟨by simp [start_scheduler], by simp [stop_scheduler], ?_⟩
  simp [start_scheduler]

/-! ## C7: heuristic scores versus the fixed meta scores -/

/-- C7 (counterexample): the img element `imgC7` passes the validity
filter, qualifies as a potential top image, and its heuristic score
is 110, at least the Open-Graph synthetic score 100 (and above the
Twitter score 90) — the heuristic score is not strictly below 100,
so a meta-image candidate does not always outrank it. -/
theorem image_score_exceeds_meta :
    is_valid_image imgC7 "https://e/p.bmp" = true
    ∧ is_potential_top_image imgC7 "https://e/p.bmp" = true
    ∧ calculate_image_score imgC7 "https://e/p.bmp" = 110
    ∧ 100 ≤ calculate_image_score imgC7 "https://e/p.bmp" := by
  refine ⟨by decide, by decide, by decide, by decide⟩

theorem indicator_foldl_const (cstr istr astr : String) :
    ∀ (l : List String) (acc : Nat),
      (∀ ind ∈ l, strIn ind cstr = false ∧ strIn ind istr = false
        ∧ strIn ind astr = false) →
      l.foldl (fun acc ind => acc + (if strIn ind cstr then 25 else 0)
        + (if strIn ind istr then 20 else 0)
        + (if strIn ind astr then 15 else 0)) acc = acc := by
  intro l
  induction l with
  | nil => intro acc _; rfl
  | cons x t ih =>
    intro acc h
    obtain ⟨h1, h2, h3⟩ := h x (List.mem_cons_self x t)
    simp only [List.foldl_cons, h1, h2, h3, if_false, Nat.add_zero]
    exact ih acc fun i hi => h i (List.mem_cons_of_mem x hi)

/-- C7 (amended): the bound holds only for elements carrying no
article-indicator keyword in class, id or alt text: their score is at
most 45, strictly below both synthetic meta scores 90 and 100.  With
indicators present the score can reach 100 and beyond (see the
counterexample), so in general meta candidates do not outrank all
heuristic candidates. -/
theorem image_score_bound_amended (img : ImgTag) (src : String)
    (h : ∀ ind ∈ article_indicators,
      strIn ind (classStr img) = false ∧ strIn ind (idStr img) = false
        ∧ strIn ind (altStr img) = false) :
    calculate_image_score img src ≤ 45 := by
  simp only [calculate_image_score]
  rw [indicator_foldl_const (classStr img) (idStr img) (altStr img)
    article_indicators _ h]
  have hdim : (if pyTruthy img.width && pyTruthy img.height then
      match (img.width.getD "").toInt?, (img.height.getD "").toInt? with
      | some w, some h =>
        if w ≥ 400 && h ≥ 300 then 30
        else if w ≥ 300 && h ≥ 200 then 20
        else if w ≥ 200 && h ≥ 150 then 10
        else 0
      | _, _ => 0
     else 0) ≤ 30 := by
    repeat' split
    all_goals omega
  have hext : (if strEndsWith (strLower src) ".jpg"
      || strEndsWith (strLower src) ".jpeg"
      || strEndsWith (strLower src) ".png" then 5 else 0) ≤ 5 := by
    split <;> omega
  omega

theorem image_score_bound_amended_witness :
    (∀ ind ∈ article_indicators,
      strIn ind (classStr { src := some "https://e/plain.bmp" })
          = false
        ∧ strIn ind (idStr { src := some "https://e/plain.bmp" }) = false
        ∧ strIn ind (altStr { src := some "https://e/plain.bmp" }) = false)
    ∧ calculate_image_score { src := some "https://e/plain.bmp" }
        "https://e/plain.bmp" ≤ 45 :=
  ⟨by decide,
   image_score_bound_amended { src := some "https://e/plain.bmp" }
     "https://e/plain.bmp" (by decide)⟩

/-! ## C8: feed image versus the Image Selector -/

/-- C8 (counterexample): on an entry with no feed-native metadata and
a summary containing a single img, the adapter returns that first img
src, while the Image Selector on the exact same summary markup yields
an empty best image — both as shipped (`extract_images`, which always
returns empty, see C1) and as intended (`extract_images_selection`,
whose validity filter rejects the blocklisted logo src).  The two
disagree, so the adapter does not compute the best image of the
Image Selector. -/
theorem extract_image_not_selector :
    extract_image parse1 entryC8 "" = .ok (some "http://s/logo.png")
    ∧ (extract_images lib0 "http://s/page" (parse1 sumStr)).2 = ""
    ∧ (extract_images_selection lib0 "http://s/page" (parse1 sumStr)).2 = ""
    ∧ ("http://s/logo.png" : String) ≠ "" := by
  refine ⟨rfl, rfl, by decide, by decide⟩

/-- C8 (amended): the feed adapter resolves an image via feed-native
metadata when present (media_thumbnail first, then media_content);
else, when summary markup is present, via the src attribute of the
FIRST img element of the parsed summary if that src is truthy (no
filtering, scoring or best-image selection is applied, and later img
elements are never inspected); and when neither is present the result
is empty (`None`). -/
theorem extract_image_branches_amended (parse : String → Doc)
    (e : RSSEntry) (u s c : String) :
    extract_image parse { e with media_thumbnail := some (some u) } c
        = .ok (some u)
    ∧ extract_image parse
        { e with media_thumbnail := none, media_content := some (some u) } c
        = .ok (some u)
    ∧ extract_image parse
        { e with media_thumbnail := none, media_content := none,
                 summary := some s } c
        = .ok (match (parse s).imgs.head? with
               | some img => if pyTruthy img.src then img.src else none
               | none => none)
    ∧ extract_image parse
        { e with media_thumbnail := none, media_content := none,
                 summary := none } c
        = .ok none := by
  refine ⟨rfl, rfl, ?_, rfl⟩
  simp only [extract_image]
  cases hh : (parse s).imgs.head? with
  | none => rfl
  | some img =>
    by_cases ht : pyTruthy img.src = true
    · simp [ht]
    · simp [Bool.eq_false_iff.mpr ht]

/-! ## C6: partial-failure tolerance of the adapters -/

/-- C6 (counterexample): in the feed [(A, [entryA1, entryBad,
entryA3])], the well-formed entryA3 (shown buildable on its own)
is lost because entryBad raises and the per-source handler abandons
the rest of the source; and the Headline-API adapter returns []
for a response whose first and third items are well-formed (shown
buildable) because the middle one raises, so a failing item aborts
the other items of the same source in both adapters. -/
theorem adapter_partial_failure :
    buildRSSItem parse0 web0 9 "A" entryA3
      = .ok { title := "T3", content := "", url := "http://a/3", source := "A",
              published_date := 5, image_url := none, authors := some [] }
    ∧ (fetch_from_rss parse0 web0 9 [("A", [entryA1, entryBad, entryA3])]).map
        (fun it => it.url) = ["http://a/1"]
    ∧ buildAPIItem web0 iso0 apiG1
      = .ok { title := "G1", content := "", url := "http://n/1",
              source := "Unknown", published_date := 7, image_url := none,
              authors := some [] }
    ∧ fetch_top_headlines web0 iso0 respBad = [] := by
  refine ⟨rfl, by decide, rfl, rfl⟩

theorem foldl_append_init {α β : Type} (g : α → List β) :
    ∀ (l : List α) (acc : List β),
      l.foldl (fun a x => a ++ g x) acc
        = acc ++ l.foldl (fun a x => a ++ g x) [] := by
  intro l
  induction l with
  | nil => intro acc; simp
  | cons x t ih =>
    intro acc
    simp only [List.foldl_cons, List.nil_append]
    rw [ih (acc ++ g x), ih (g x), List.append_assoc]

theorem fetch_from_rss_append (parse : String → Doc)
    (web : String → Option String) (now : Nat)
    (fs gs : List (String × List RSSEntry)) :
    fetch_from_rss parse web now (fs ++ gs)
      = fetch_from_rss parse web now fs ++ fetch_from_rss parse web now gs := by
  simp only [fetch_from_rss, List.foldl_append]
  rw [foldl_append_init]

/-- C6 (amended): the failure isolation the adapters actually provide
is per SOURCE, not per item.  The RSS adapter is compositional over
its source list — a failure inside one source never affects what
other sources contribute — while a failing entry aborts the remaining
entries of its own source (counterexample above).  The Headline-API
adapter is all-or-nothing: whenever any selected item raises, the
whole fetch returns the empty list. -/
theorem adapter_failure_isolation_amended (parse : String → Doc)
    (web : String → Option String) (now : Nat)
    (fs gs : List (String × List RSSEntry))
    (fromIso : String → Except String Nat) (resp : APIResponse) (err : String)
    (h : headlinesLoop web fromIso resp.articles = .error err) :
    fetch_from_rss parse web now (fs ++ gs)
      = fetch_from_rss parse web now fs ++ fetch_from_rss parse web now gs
    ∧ fetch_top_headlines web fromIso resp = [] := by
  refine ⟨fetch_from_rss_append parse web now fs gs, ?_⟩
  cases hs : resp.status == some "ok" <;> simp [fetch_top_headlines, hs, h]

theorem adapter_failure_isolation_amended_witness :
    headlinesLoop web0 iso0 respBad.articles = .error "KeyError: publishedAt"
    ∧ fetch_from_rss parse0 web0 9 ([("A", [entryA1])] ++ [("B", [entryA3])])
        = fetch_from_rss parse0 web0 9 [("A", [entryA1])]
          ++ fetch_from_rss parse0 web0 9 [("B", [entryA3])]
    ∧ fetch_top_headlines web0 iso0 respBad = [] := by
  have h : headlinesLoop web0 iso0 respBad.articles
      = .error "KeyError: publishedAt" := rfl
  have main := adapter_failure_isolation_amended parse0 web0 9
    [("A", [entryA1])] [("B", [entryA3])] iso0 respBad "KeyError: publishedAt" h
  exact ⟨h, main.1, main.2⟩

/-! ## C2: the deduplicator -/

theorem removeDupGo_sublist (m : String → String) :
    ∀ (t : List NewsItem) (su st : List String),
      (removeDupGo m t su st).Sublist t := by
  intro t
  induction t with
  | nil => intro su st; simp [removeDupGo]
  | cons a t ih =>
    intro su st
    simp only [removeDupGo]
    by_cases h1 : a.url ∈ su
    · rw [if_pos h1]; exact (ih su st).cons a
    · rw [if_neg h1]
      by_cases h2 : m (strLower a.title) ∈ st
      · rw [if_pos h2]; exact (ih su st).cons a
      · rw [if_neg h2]; exact (ih _ _).cons₂ a

theorem removeDupGo_mem (m : String → String) :
    ∀ (t : List NewsItem) (su st : List String) (b : NewsItem),
      b ∈ removeDupGo m t su st →
      b.url ∉ su ∧ m (strLower b.title) ∉ st := by
  intro t
  induction t with
  | nil => intro su st b hb; simp [removeDupGo] at hb
  | cons a t ih =>
    intro su st b hb
    simp only [removeDupGo] at hb
    by_cases h1 : a.url ∈ su
    · rw [if_pos h1] at hb; exact ih su st b hb
    · rw [if_neg h1] at hb
      by_cases h2 : m (strLower a.title) ∈ st
      · rw [if_pos h2] at hb; exact ih su st b hb
      · rw [if_neg h2] at hb
        rcases List.mem_cons.mp hb with hba | hbr
        · subst hba; exact ⟨h1, h2⟩
        · have hr := ih _ _ b hbr
          exact ⟨fun hm => hr.1 (List.mem_cons_of_mem _ hm),
                 fun hm => hr.2 (List.mem_cons_of_mem _ hm)⟩

theorem removeDupGo_pairwise (m : String → String) :
    ∀ (t : List NewsItem) (su st : List String),
      (removeDupGo m t su st).Pairwise
        (fun a b => a.url ≠ b.url
          ∧ m (strLower a.title) ≠ m (strLower b.title)) := by
  intro t
  induction t with
  | nil => intro su st; simp [removeDupGo]
  | cons a t ih =>
    intro su st
    simp only [removeDupGo]
    by_cases h1 : a.url ∈ su
    · rw [if_pos h1]; exact ih su st
    · rw [if_neg h1]
      by_cases h2 : m (strLower a.title) ∈ st
      · rw [if_pos h2]; exact ih su st
      · rw [if_neg h2]
        refine List.Pairwise.cons ?_ (ih _ _)
        intro b hb
        have hmem := removeDupGo_mem m t _ _ b hb
        refine ⟨fun he => hmem.1 ?_, fun he => hmem.2 ?_⟩
        · rw [← he]; exact List.mem_cons_self _ _
        · rw [← he]; exact List.mem_cons_self _ _

theorem dedupe_foldl_eq (m : String → String) :
    ∀ (t : List NewsItem) (kept : List NewsItem) (su st : List String),
      (t.foldl
        (fun s a =>
          if a.url ∈ s.2.1 then s
          else if m (strLower a.title) ∈ s.2.2 then s
          else (s.1 ++ [a], a.url :: s.2.1, m (strLower a.title) :: s.2.2))
        (kept, su, st)).1
      = kept ++ removeDupGo m t su st := by
  intro t
  induction t with
  | nil => intro kept su st; simp [removeDupGo]
  | cons a t ih =>
    intro kept su st
    simp only [List.foldl_cons, removeDupGo]
    by_cases h1 : a.url ∈ su
    · rw [if_pos h1, if_pos h1]; exact ih kept su st
    · rw [if_neg h1, if_neg h1]
      by_cases h2 : m (strLower a.title) ∈ st
      · rw [if_pos h2, if_pos h2]; exact ih kept su st
      · rw [if_neg h2, if_neg h2]
        rw [ih (kept ++ [a]) _ _]
        simp

theorem dedupeSpec_eq_go (m : String → String) (l : List NewsItem) :
    dedupeSpec m l = removeDupGo m l [] [] := by
  have h := dedupe_foldl_eq m l [] [] []
  simpa [dedupeSpec] using h

/-- C2: the deduplication loop coincides with the reference algorithm
of the spec (skip on seen URL, else on seen case-insensitive title
hash, else keep and record both, scanning in input order); hence no
two kept articles share a URL, no two kept articles have titles equal
up to letter case (their lowered-title digests differ, so the lowered
titles differ — the later of two case-variant titles is always
skipped), and the output is a sublist of the input, preserving
first-occurrence order.  `md5hex` is the digest as an arbitrary
function, so this holds for the real md5 in particular. -/
theorem remove_duplicates_meets_spec (md5hex : String → String)
    (l : List NewsItem) :
    remove_duplicates md5hex l = dedupeSpec md5hex l
    ∧ (remove_duplicates md5hex l).Pairwise (fun a b => a.url ≠ b.url)
    ∧ (remove_duplicates md5hex l).Pairwise
        (fun a b => strLower a.title ≠ strLower b.title)
    ∧ (remove_duplicates md5hex l).Sublist l := by
  refine ⟨?_, ?_, ?_, ?_⟩
  · rw [remove_duplicates, dedupeSpec_eq_go]
  · exact (removeDupGo_pairwise md5hex l [] []).imp (fun h => h.1)
  · exact (removeDupGo_pairwise md5hex l [] []).imp
      (fun h heq => h.2 (by rw [heq]))
  · exact removeDupGo_sublist md5hex l [] []

/-! ## C10: the persistence wrapper -/

/-- C10: `add_news_item` is total (every internal raise is caught and
turned into `False`), it returns `False` leaving the store unchanged
whenever it does not insert — in particular when the duplicate lookup
finds a document with the same url_hash, and when the lookup or the
insert fails internally — and it returns `True` exactly when one new
document was appended to the store.  Since the duplicate case and the
failure cases all yield the bare value `False`, the return value alone
cannot distinguish a duplicate from a storage error. -/
theorem add_news_item_contract (md5hex : String → String) (qf af : Bool)
    (now : String) (db : FsDB) (data : FsData) :
    ((add_news_item md5hex qf af now db data).2 = false →
      (add_news_item md5hex qf af now db data).1 = db)
    ∧ ((add_news_item md5hex qf af now db data).2 = true ↔
        ∃ d, (add_news_item md5hex qf af now db data).1.docs = db.docs ++ [d])
    ∧ (qf = true ∨ af = true →
        (add_news_item md5hex qf af now db data).2 = false)
    ∧ (∀ u, data.url = some u →
        db.docs.any (fun d => d.url_hash == some (md5hex u)) = true →
        (add_news_item md5hex qf af now db data).2 = false) := by
  cases hu : data.url with
  | none =>
    refine ⟨fun _ => by simp [add_news_item, hu], ?_, fun _ => by simp [add_news_item, hu],
      fun u hu2 _ => by simp [add_news_item, hu]⟩
    constructor
    · intro h2; simp [add_news_item, hu] at h2
    · rintro ⟨d, hd⟩
      simp [add_news_item, hu] at hd
  | some u =>
    cases qf with
    | true =>
      refine ⟨fun _ => by simp [add_news_item, hu], ?_,
        fun _ => by simp [add_news_item, hu],
        fun v hv _ => by simp [add_news_item, hu]⟩
      constructor
      · intro h2; simp [add_news_item, hu] at h2
      · rintro ⟨d, hd⟩; simp [add_news_item, hu] at hd
    | false =>
      cases hd : db.docs.any (fun d => d.url_hash == some (md5hex u)) with
      | true =>
        refine ⟨fun _ => by simp [add_news_item, hu, hd], ?_,
          fun hqa => by simp [add_news_item, hu, hd],
          fun v hv _ => by simp [add_news_item, hu, hd]⟩
        constructor
        · intro h2; simp [add_news_item, hu, hd] at h2
        · rintro ⟨d, hdd⟩; simp [add_news_item, hu, hd] at hdd
      | false =>
        cases af with
        | true =>
          refine ⟨fun _ => by simp [add_news_item, hu, hd], ?_,
            fun _ => by simp [add_news_item, hu, hd],
            fun v hv hdup => ?_⟩
          · constructor
            · intro h2; simp [add_news_item, hu, hd] at h2
            · rintro ⟨d, hdd⟩; simp [add_news_item, hu, hd] at hdd
          · cases hv
            rw [hdup] at hd
            exact absurd hd (by simp)
        | false =>
          refine ⟨fun h2 => ?_, ?_, fun hqa => ?_, fun v hv hdup => ?_⟩
          · simp [add_news_item, hu, hd] at h2
          · constructor
            · intro _
              exact ⟨withTimestamp now { data with url_hash := some (md5hex u) },
                by simp [add_news_item, hu, hd]⟩
            · intro _; simp [add_news_item, hu, hd]
          · rcases hqa with h | h <;> exact absurd h (by simp)
          · cases hv
            rw [hdup] at hd
            exact absurd hd (by simp)

theorem add_news_item_contract_witness :
    fsD1.url = some "http://x"
    ∧ dbDup.docs.any (fun d => d.url_hash == some (id "http://x")) = true
    ∧ (add_news_item id false false "now" dbDup fsD1).2 = false
    ∧ (add_news_item id false false "now" dbDup fsD1).1 = dbDup
    ∧ (add_news_item id true true "now" dbDup fsD1).2 = false := by
  have c := add_news_item_contract id false false "now" dbDup fsD1
  have cq := add_news_item_contract id true true "now" dbDup fsD1
  have hdup : dbDup.docs.any (fun d => d.url_hash == some (id "http://x"))
      = true := by decide
  have hfalse := c.2.2.2 "http://x" rfl hdup
  exact ⟨rfl, hdup, hfalse, c.1 hfalse, cq.2.2.1 (Or.inl rfl)⟩
